import Mathlib

/-!
Verification of the anubis request-gating engine (package `lib`, file
`anubis.go`, together with `lib/policy/checkresult.go` and the `Bot`
structure of `lib/policy`).  Pure Go functions are translated into Lean
functions; the HTTP handlers become functions from an explicit server
state, request and clock to a result record.  Machine integers are
modelled as `Nat`/`Int` (32-bit wrap-around arithmetic in the SHA-256
model is written with explicit `% 2^32`).  Code of the repository that
the handlers call but that is not part of the sources under
verification (the `internal`, `decaymap`, `dnsbl` and `config`
packages, and the Go standard library) is modelled from the
specification; each such definition carries a doc comment saying so.
-/

set_option maxRecDepth 1000000

set_option maxHeartbeats 1600000

namespace Anubis

/-! ## SHA-256

Modelled from the spec: `internal.SHA256sum` ("hex SHA-256 of an ASCII
key/value joined string", §3), which is not among the source files under
verification.  This is a complete FIPS 180-4 SHA-256 over the byte
sequence of the input string (inputs in this development are ASCII, so
code points and UTF-8 bytes agree), producing the lowercase hex digest. -/

namespace SHA256

def M32 : Nat := 4294967296

def rotr (n x : Nat) : Nat := ((x >>> n) ||| (x <<< (32 - n))) % M32

def compl32 (x : Nat) : Nat := 4294967295 - x

def ch (x y z : Nat) : Nat := (x &&& y) ^^^ (compl32 x &&& z)

def maj (x y z : Nat) : Nat := (x &&& y) ^^^ (x &&& z) ^^^ (y &&& z)

def bigSigma0 (x : Nat) : Nat := rotr 2 x ^^^ rotr 13 x ^^^ rotr 22 x

def bigSigma1 (x : Nat) : Nat := rotr 6 x ^^^ rotr 11 x ^^^ rotr 25 x

def smallSigma0 (x : Nat) : Nat := rotr 7 x ^^^ rotr 18 x ^^^ (x >>> 3)

def smallSigma1 (x : Nat) : Nat := rotr 17 x ^^^ rotr 19 x ^^^ (x >>> 10)

/-- The 64 round constants of FIPS 180-4 §4.2.2, in decimal. -/
def K : List Nat :=
  [1116352408, 1899447441, 3049323471, 3921009573, 961987163, 1508970993,
   2453635748, 2870763221, 3624381080, 310598401, 607225278, 1426881987,
   1925078388, 2162078206, 2614888103, 3248222580, 3835390401, 4022224774,
   264347078, 604807628, 770255983, 1249150122, 1555081692, 1996064986,
   2554220882, 2821834349, 2952996808, 3210313671, 3336571891, 3584528711,
   113926993, 338241895, 666307205, 773529912, 1294757372, 1396182291,
   1695183700, 1986661051, 2177026350, 2456956037, 2730485921, 2820302411,
   3259730800, 3345764771, 3516065817, 3600352804, 4094571909, 275423344,
   430227734, 506948616, 659060556, 883997877, 958139571, 1322822218,
   1537002063, 1747873779, 1955562222, 2024104815, 2227730452, 2361852424,
   2428436474, 2756734187, 3204031479, 3329325298]

/-- The initial hash state of FIPS 180-4 §5.3.3, in decimal. -/
def H0 : List Nat :=
  [1779033703, 3144134277, 1013904242, 2773480762,
   1359893119, 2600822924, 528734635, 1541459225]

/-- Pad a byte list per FIPS 180-4: append 0x80, zeros, and the 64-bit
big-endian bit length, reaching a multiple of 64 bytes. -/
def pad (msg : List Nat) : List Nat :=
  let L := msg.length
  let k := (119 - L % 64) % 64
  let lenBytes := (List.range 8).map (fun i => ((8 * L) >>> (8 * (7 - i))) % 256)
  msg ++ [0x80] ++ List.replicate k 0 ++ lenBytes

/-- Split a byte list into 64-byte blocks (fuel-based structural
recursion; `toBlocks` supplies the list's length as fuel). -/
def toBlocksF : Nat → List Nat → List (List Nat)
  | 0, _ => []
  | _, [] => []
  | fuel + 1, a :: rest => ((a :: rest).take 64) :: toBlocksF fuel ((a :: rest).drop 64)

/-- Split a byte list into 64-byte blocks. -/
def toBlocks (l : List Nat) : List (List Nat) := toBlocksF l.length l

/-- Big-endian 32-bit word at word index `i` of a 64-byte block. -/
def wordAt (bl : List Nat) (i : Nat) : Nat :=
  bl.getD (4 * i) 0 * 16777216 + bl.getD (4 * i + 1) 0 * 65536 +
    bl.getD (4 * i + 2) 0 * 256 + bl.getD (4 * i + 3) 0

/-- The 64-entry message schedule of one block. -/
def schedule (bl : List Nat) : List Nat :=
  let w0 := (List.range 16).map (wordAt bl)
  (List.range 48).foldl
    (fun w _ =>
      let n := w.length
      w ++ [(smallSigma1 (w.getD (n - 2) 0) + w.getD (n - 7) 0 +
             smallSigma0 (w.getD (n - 15) 0) + w.getD (n - 16) 0) % M32])
    w0

/-- One round of the compression function; the state is the list
`[a,b,c,d,e,f,g,h]`. -/
def round (st : List Nat) (kw : Nat × Nat) : List Nat :=
  match st with
  | [a, b, c, d, e, f, g, h] =>
    let t1 := (h + bigSigma1 e + ch e f g + kw.1 + kw.2) % M32
    let t2 := (bigSigma0 a + maj a b c) % M32
    [(t1 + t2) % M32, a, b, c, (d + t1) % M32, e, f, g]
  | other => other

def compress (H : List Nat) (bl : List Nat) : List Nat :=
  let final := ((K.zip (schedule bl)).map (fun kw => (kw.2, kw.1))).foldl round H
  (H.zip final).map (fun p => (p.1 + p.2) % M32)

def digestWords (msg : List Nat) : List Nat :=
  (toBlocks (pad msg)).foldl compress H0

def hexDigit (n : Nat) : Char := Char.ofNat (if n < 10 then 48 + n else 87 + n)

def byteHex (b : Nat) : String :=
  String.mk [hexDigit (b / 16), hexDigit (b % 16)]

def wordHex (w : Nat) : String :=
  byteHex (w >>> 24 % 256) ++ byteHex (w >>> 16 % 256) ++ byteHex (w >>> 8 % 256) ++ byteHex (w % 256)

end SHA256

/-- Modelled from the spec: `internal.SHA256sum` — the lowercase hex
SHA-256 digest of the input string's bytes (§3 "hex SHA-256").  The
`internal` package is not among the sources under verification. -/
def sha256hex (s : String) : String :=
  String.join ((SHA256.digestWords (s.toList.map Char.toNat)).map SHA256.wordHex)

/-! ## String helpers

Structurally recursive character-list helpers used by the parsing and
formatting models (they replace the corresponding Go standard-library
primitives; all are total and evaluable by the kernel). -/

/-- Decimal digit character for `n < 10`. -/
def digitChar (n : Nat) : Char := Char.ofNat (48 + n)

/-- Decimal digits of `n`, most significant first (fuel-based;
`natDec` supplies ample fuel). -/
def natDecAux : Nat → Nat → List Char
  | 0, _ => []
  | fuel + 1, n => if n < 10 then [digitChar n] else natDecAux fuel (n / 10) ++ [digitChar (n % 10)]

/-- Decimal rendering of a natural number (Go `fmt` `%d`). -/
def natDec (n : Nat) : String := String.mk (natDecAux (n + 1) n)

/-- Decimal rendering of an integer (Go `fmt` `%d`). -/
def intDec (i : Int) : String := if i < 0 then "-" ++ natDec i.natAbs else natDec i.toNat

/-- ASCII lower-casing of one character. -/
def charLower (c : Char) : Char :=
  if 'A' ≤ c ∧ c ≤ 'Z' then Char.ofNat (c.toNat + 32) else c

/-- Split a character list on a non-empty separator, greedily left to
right (fuel-based; `splitSep` supplies ample fuel). -/
def splitSepF (sep : List Char) : Nat → List Char → List Char → List (List Char)
  | _, acc, [] => [acc.reverse]
  | 0, acc, l => [acc.reverse ++ l]
  | fuel + 1, acc, c :: rest =>
    if sep.isPrefixOf (c :: rest) then
      acc.reverse :: splitSepF sep fuel [] ((c :: rest).drop sep.length)
    else splitSepF sep fuel (c :: acc) rest

/-- Split a character list on a non-empty separator (the behaviour of
Go `strings.Split` and of `String.splitOn` for the separators used
here). -/
def splitSep (sep l : List Char) : List (List Char) := splitSepF sep l.length [] l

/-- A non-empty run of decimal digits. -/
def digitsOk (l : List Char) : Bool := !l.isEmpty && l.all Char.isDigit

/-- Go `strings.HasPrefix` over the characters of two strings. -/
def strStartsWith (s pre : String) : Bool := pre.toList.isPrefixOf s.toList

/-! ## Time

Wall-clock instants are seconds since the Go zero time (January 1 of
year 1, UTC), as `Nat`; `time.Time.Round` measures durations from that
zero time. -/

/-- Seconds in `24 * 7 * time.Hour`. -/
def weekSecs : Nat := 604800

/-- Go `time.Time.Round(24*7*time.Hour)` on a UTC instant `t` (seconds
since the zero time): the nearest multiple of 7 days, with halfway
values rounding up (Go rounds half away from zero; instants here are
non-negative).  Modelled from the Go standard library, which the source
calls at `challengeFor`. -/
def goRoundWeek (t : Nat) : Nat :=
  let r := t % weekSecs
  if r + r < weekSecs then t - r else t + (weekSecs - r)

/-- Left-pad the decimal form of `n` with zeros to width `w`. -/
def padNum (w n : Nat) : String :=
  let s := natDec n
  String.mk (List.replicate (w - s.length) '0') ++ s

/-- Go `Format(time.RFC3339)` of a UTC instant (seconds since the zero
time): `YYYY-MM-DDTHH:MM:SSZ`.  Civil date by the standard
days-to-Gregorian conversion.  Modelled from the Go standard library,
which the source calls at `challengeFor`. -/
def rfc3339 (t : Nat) : String :=
  let days := t / 86400
  let secs := t % 86400
  -- z counts days from 0000-03-01; day 0 of `days` is 0001-01-01.
  let z := days + 306
  let era := z / 146097
  let doe := z % 146097
  let yoe := (doe - doe / 1460 + doe / 36524 - doe / 146096) / 365
  let y0 := yoe + era * 400
  let doy := doe - (365 * yoe + yoe / 4 - yoe / 100)
  let mp := (5 * doy + 2) / 153
  let d := doy - (153 * mp + 2) / 5 + 1
  let m := if mp < 10 then mp + 3 else mp - 9
  let y := if m ≤ 2 then y0 + 1 else y0
  padNum 4 y ++ "-" ++ padNum 2 m ++ "-" ++ padNum 2 d ++ "T" ++
    padNum 2 (secs / 3600) ++ ":" ++ padNum 2 (secs % 3600 / 60) ++ ":" ++ padNum 2 (secs % 60) ++ "Z"

/-! ## Parsing models for Go standard-library calls -/

/-- Go `strconv.Atoi`: optional sign, then one or more decimal digits,
nothing else; values outside the 64-bit signed range are an error.
Modelled from the Go standard library, called at `PassChallenge`. -/
def goAtoi (s : String) : Option Int :=
  let (neg, digits) :=
    match s.toList with
    | '-' :: rest => (true, rest)
    | '+' :: rest => (false, rest)
    | l => (false, l)
  if ¬ digitsOk digits then none
  else
    let n : Nat := digits.foldl (fun a c => a * 10 + (c.toNat - 48)) 0
    let v : Int := if neg then -(n : Int) else (n : Int)
    if v < -(2 ^ 63) ∨ v > 2 ^ 63 - 1 then none else some v

/-- Mantissa of a decimal float: digits with an optional single dot,
at least one digit overall. -/
def mantOk (m : List Char) : Bool :=
  match splitSep ['.'] m with
  | [a] => digitsOk a
  | [a, b] => (a.length + b.length ≥ 1 : Bool) && a.all Char.isDigit && b.all Char.isDigit
  | _ => false

/-- Exponent part of a decimal float: optional sign then digits. -/
def expPartOk (ex : List Char) : Bool :=
  match ex with
  | '+' :: r => digitsOk r
  | '-' :: r => digitsOk r
  | r => digitsOk r

/-- Whether Go `strconv.ParseFloat(s, 64)` succeeds.  Modelled from the
Go standard library (decimal forms with optional sign, dot and
exponent, and the inf/nan spellings; hexadecimal floats omitted).  Only
success or failure matters to the source: the parsed value is recorded
in a latency histogram and logged. -/
def goParseFloatOk (s : String) : Bool :=
  let l := s.toList.map charLower
  let t := match l with
    | '+' :: r => r
    | '-' :: r => r
    | r => r
  if t = ['i', 'n', 'f'] ∨ t = ['i', 'n', 'f', 'i', 'n', 'i', 't', 'y'] ∨ t = ['n', 'a', 'n'] then
    true
  else
    match splitSep ['e'] t with
    | [m] => mantOk m
    | [m, ex] => mantOk m && expPartOk ex
    | _ => false

/-- One dotted-quad IPv4 field: 1–3 decimal digits, value ≤ 255, no
leading zero on a multi-digit field (Go rejects those). -/
def ipv4FieldOk (l : List Char) : Bool :=
  digitsOk l && l.length ≤ 3 && (l.length == 1 || !(l.headD ' ' == '0')) &&
    l.foldl (fun a c => a * 10 + (c.toNat - 48)) 0 ≤ 255

/-- Whether `s` is a dotted-quad IPv4 address as accepted by Go
`net.ParseIP`.  Modelled from the Go standard library, called at
`Server.check`. -/
def goParseIPv4 (s : String) : Bool :=
  match splitSep ['.'] s.toList with
  | [a, b, c, d] => ipv4FieldOk a && ipv4FieldOk b && ipv4FieldOk c && ipv4FieldOk d
  | _ => false

/-- A 1–4 digit hexadecimal IPv6 group. -/
def hexGroupOk (l : List Char) : Bool :=
  (l.length ≥ 1 : Bool) && l.length ≤ 4 &&
    l.all (fun c => c.isDigit || ('a' ≤ c && c ≤ 'f') || ('A' ≤ c && c ≤ 'F'))

/-- Whether `s` is an IPv6 address as accepted by Go `net.ParseIP`:
eight hex groups, or fewer with one `::` run.  Modelled from the Go
standard library (embedded dotted-quad tails such as `::ffff:1.2.3.4`
are not modelled; no claim depends on them). -/
def goParseIPv6 (s : String) : Bool :=
  match splitSep [':', ':'] s.toList with
  | [whole] =>
    let gs := splitSep [':'] whole
    gs.length == 8 && gs.all hexGroupOk
  | [l, r] =>
    let ls := if l.isEmpty then [] else splitSep [':'] l
    let rs := if r.isEmpty then [] else splitSep [':'] r
    ls.length + rs.length ≤ 7 && ls.all hexGroupOk && rs.all hexGroupOk
  | _ => false

/-- Go `net.ParseIP`: succeeds on IPv4 dotted quads and on IPv6
addresses, returning nil otherwise.  Only success or failure matters to
`Server.check`.  Modelled from the Go standard library. -/
def goParseIP (s : String) : Option Bool :=
  if goParseIPv4 s then some true
  else if s.toList.contains ':' && goParseIPv6 s then some false
  else none

/-! ## Data model -/

/-- A JSON claim value as produced by decoding a JWT claims object:
strings, numbers (the source only ever reads integral numbers — Go
decodes JSON numbers as `float64` and `MaybeReverseProxy` truncates to
`int`; non-integral values are not modelled), or anything else. -/
inductive JSONVal where
  | str (s : String)
  | num (n : Int)
  | other
  deriving DecidableEq, Repr

/-- The claims object of a session token.  `challenge`, `nonce` and
`response` are the application claims of `PassChallenge`; `iat`, `nbf`
and `exp` are the registered time claims (seconds since epoch, `Int`). -/
structure TokenClaims where
  challenge : Option JSONVal
  nonce : Option JSONVal
  response : Option JSONVal
  iat : Option Int
  nbf : Option Int
  exp : Option Int
  deriving DecidableEq, Repr

/-- A signed JWT: its claims plus the identity of the signing key
(Ed25519 signing itself is abstracted to key identity; a token
verifies under public key `k` iff it was signed with `k`'s private
half, which the model writes as equality of seeds). -/
structure Token where
  claims : TokenClaims
  key : String
  deriving DecidableEq, Repr

/-- The value of the anubis cookie on an incoming request: either a
well-formed JWT or bytes that fail `http.Cookie.Valid`/JWT decoding. -/
inductive CookieVal where
  | token (t : Token)
  | garbage
  deriving DecidableEq, Repr

/-- `config.Rule` (package `lib/policy/config`, not among the sources
under verification; modelled from the spec's action tags
{allow, deny, challenge, benchmark} plus the zero value that the
handler's `default` switch branch catches). -/
inductive Rule where
  | allow
  | deny
  | challenge
  | benchmark
  | unknown
  deriving DecidableEq, Repr

/-- `config.ChallengeRules` (package `lib/policy/config`, not among the
sources under verification; modelled from the spec §3:
`challenge_params = { difficulty, report_as, algorithm }`). -/
structure ChallengeRules where
  difficulty : Nat
  reportAs : Nat
  algorithm : String
  deriving DecidableEq, Repr

/-- Modelled from the spec: `config.AlgorithmFast`, the "fast algorithm
tag" used by the synthetic default rule (§4.5). -/
def AlgorithmFast : String := "fast"

/-- The slice of an `http.Request` that the gating engine reads:
the three fingerprinted headers, the anubis cookie, and the form
values of the pass-challenge endpoint (Go `FormValue` yields `""`
for an absent parameter). -/
structure Request where
  acceptLanguage : String
  xRealIP : String
  userAgent : String
  cookie : Option CookieVal
  formNonce : String
  formElapsedTime : String
  formResponse : String
  formRedir : String

/-- `policy.Bot` (file `lib/policy`): a named rule with an action,
optional challenge parameters (a Go pointer, `none` = nil), and a
`Checker`.  The checker capability is its two operations: `Check`
(a request predicate that can also fail) and `Hash` (the stable
content hash), per §4.4. -/
structure Bot where
  name : String
  action : Rule
  challenge : Option ChallengeRules
  rulesCheck : Request → Except String Bool
  rulesHash : String

/-- `Bot.Hash` (file `lib/policy`):
`SHA256sum(fmt.Sprintf("%s::%s", b.Name, b.Rules.Hash()))`. -/
def Bot.hash (b : Bot) : String := sha256hex (b.name ++ "::" ++ b.rulesHash)

/-- `policy.CheckResult` (file `lib/policy/checkresult.go`). -/
structure CheckResult where
  name : String
  rule : Rule
  deriving DecidableEq, Repr

/-- `policy.ParsedConfig`, as consumed by `Server` (bots in declaration
order, the DNSBL switch, the default difficulty). -/
structure ParsedConfig where
  bots : List Bot
  dnsbl : Bool
  defaultDifficulty : Nat

/-- The fields of `lib.Options` that the verified handlers read. -/
structure Options where
  cookieDomain : String
  cookiePartitioned : Bool

/-- Modelled from the spec: `anubis.CookieName`, the fixed default
cookie-name constant (§6 "name configurable (default a fixed
constant)"); `PassChallenge` sets the cookie under this package
constant. -/
def CookieName : String := "within.website-x-cmd-anubis-auth"

/-- The classification stored in the DNSBL decaying cache
(`dnsbl.DroneBLResponse`, not among the sources under verification).
Modelled from the spec §4.2/§3: `all_good` or a listed reason code;
Go's zero value for the byte-based type is `0`, the `all_good`
classification. -/
abbrev DroneBLResponse := Nat

/-- Modelled from the spec: `dnsbl.AllGood`, the not-listed
classification, the zero value returned by a decaying-map read that
misses (`decaymap.Zilch`). -/
def AllGood : DroneBLResponse := 0

/-- Modelled from the spec §4.1: the decaying map — entries carry an
absolute expiry; a read at or past the expiry is absent. -/
def DecayMap (V : Type) := List (String × V × Nat)

/-- Decaying-map read (§4.1 `get`): absent if the key is missing or its
expiry ≤ now. -/
def dmGet {V : Type} (m : DecayMap V) (now : Nat) (k : String) : Option V :=
  match List.find? (fun e => e.1 == k) m with
  | some e => if e.2.2 ≤ now then none else some e.2.1
  | none => none

/-- Decaying-map write (§4.1 `set`): expiry = now + ttl, overwriting any
previous entry for the key. -/
def dmSet {V : Type} (m : DecayMap V) (now : Nat) (k : String) (v : V) (ttl : Nat) : DecayMap V :=
  (k, v, now + ttl) :: List.filter (fun e => !(e.1 == k)) m

/-- `lib.Server`: the signing key (as its seed; the public key is the
corresponding verification identity), the parsed policy, the options,
and the DNSBL decaying cache. -/
structure Server where
  privSeed : String
  policy : ParsedConfig
  opts : Options
  dnsblCache : DecayMap DroneBLResponse

/-! ## Challenge derivation (`Server.challengeFor`) -/

/-- The key/value string hashed by `Server.challengeFor`: the
`fmt.Sprintf` at lines 176–184 of `anubis.go`.  `%x` of
`sha256.Sum256(s.priv.Seed())` is the hex digest of the seed;
`time.Now().UTC().Round(24*7*time.Hour)` is `goRoundWeek now`. -/
def challengeData (s : Server) (r : Request) (now : Nat) (difficulty : Nat) : String :=
  "Accept-Language=" ++ r.acceptLanguage ++
    ",X-Real-IP=" ++ r.xRealIP ++
    ",User-Agent=" ++ r.userAgent ++
    ",WeekTime=" ++ rfc3339 (goRoundWeek now) ++
    ",Fingerprint=" ++ sha256hex s.privSeed ++
    ",Difficulty=" ++ natDec difficulty

/-- `Server.challengeFor`: hex SHA-256 of the challenge data. -/
def challengeFor (s : Server) (r : Request) (now : Nat) (difficulty : Nat) : String :=
  sha256hex (challengeData s r now difficulty)

/-! ## Policy evaluation (`Server.check`) -/

/-- The error value of `Server.check`, structured by provenance: the
two `[misconfiguration]`-tagged header errors, and the wrapped error of
a failing rule check (`"can't run check %s: %w"`). -/
inductive CheckErr where
  | misconfigNoHeader
  | misconfigNotIP (host : String)
  | ruleCheckErr (name msg : String)
  deriving DecidableEq, Repr

/-- Whether a `Server.check` error carries the `[misconfiguration]`
message tag. -/
def CheckErr.isMisconfig : CheckErr → Bool
  | .misconfigNoHeader => true
  | .misconfigNotIP _ => true
  | .ruleCheckErr _ _ => false

/-- The rule-iteration loop of `Server.check` (lines 549–558): first
failing check aborts, first match wins, otherwise fall through. -/
def checkBots (r : Request) : List Bot → Except CheckErr (Option (CheckResult × Bot))
  | [] => .ok none
  | b :: rest =>
    match b.rulesCheck r with
    | .error e => .error (.ruleCheckErr b.name e)
    | .ok true => .ok (some (⟨"bot/" ++ b.name, b.action⟩, b))
    | .ok false => checkBots r rest

/-- The synthetic rule returned on the default path of `Server.check`
(lines 560–566): a zero `policy.Bot` except for challenge parameters
carrying the default difficulty twice and the fast algorithm tag.  The
zero Go `Bot` has empty name, the zero `config.Rule` and a nil
`Checker`; the nil checker is never invoked, modelled as constant
no-match with empty hash. -/
def defaultBot (d : Nat) : Bot where
  name := ""
  action := .unknown
  challenge := some { difficulty := d, reportAs := d, algorithm := AlgorithmFast }
  rulesCheck := fun _ => .ok false
  rulesHash := ""

/-- `Server.check` (lines 538–567): require a non-empty `X-Real-Ip`
header that `net.ParseIP` accepts, then run the rule loop; with no
match return `("default/allow", allow)` and the synthetic rule. -/
def check (s : Server) (r : Request) : Except CheckErr (CheckResult × Bot) :=
  if r.xRealIP = "" then .error .misconfigNoHeader
  else
    match goParseIP r.xRealIP with
    | none => .error (.misconfigNotIP r.xRealIP)
    | some _ =>
      match checkBots r s.policy.bots with
      | .error e => .error e
      | .ok (some res) => .ok res
      | .ok none => .ok (⟨"default/allow", .allow⟩, defaultBot s.policy.defaultDifficulty)

/-! ## Session-token verification -/

/-- Modelled from the spec §4.7: `jwt.ParseWithClaims` with
`WithExpirationRequired` and `WithStrictDecoding` against the server's
Ed25519 public key — the token must decode, verify under exactly that
key, carry a present and non-past `exp`, and satisfy `nbf ≤ now` when
`nbf` is present (the `golang-jwt` library is outside the sources under
verification). -/
def jwtParse (pubSeed : String) (now : Nat) (cv : CookieVal) : Option TokenClaims :=
  match cv with
  | .garbage => none
  | .token t =>
    if t.key = pubSeed then
      match t.claims.exp with
      | none => none
      | some e =>
        if (now : Int) < e then
          match t.claims.nbf with
          | none => some t.claims
          | some b => if b ≤ (now : Int) then some t.claims else none
        else none
    else none

/-! ## Gating handler (`Server.MaybeReverseProxy`) -/

/-- The observable response of the gating handler: which page or
forwarding decision it produced.  `panicked` is a Go runtime panic
(a failed type assertion or nil-pointer dereference) aborting the
request. -/
inductive Outcome where
  | misconfigPage
  | dnsblPage (code : DroneBLResponse) (ip : String)
  | denyPage (hash : String)
  | otherErrorPage
  | forwardedAllow
  | benchPage
  | challengePage
  | forwardedBrief
  | forwardedFull
  | panicked
  deriving DecidableEq, Repr

/-- The HTTP status the gating handler writes for each outcome
(forwarding hands the response to the origin; a panic writes none). -/
def Outcome.status : Outcome → Option Nat
  | .misconfigPage => some 500
  | .dnsblPage _ _ => some 200
  | .denyPage _ => some 200
  | .otherErrorPage => some 500
  | .forwardedAllow => none
  | .benchPage => some 200
  | .challengePage => some 200
  | .forwardedBrief => none
  | .forwardedFull => none
  | .panicked => none

/-- The user-facing message rendered into the error page for the
outcomes that render one (the `web` templates are outside the sources
under verification; the body is modelled as the message handed to
`web.ErrorPage`). -/
def Outcome.body : Outcome → Option String
  | .denyPage h => some ("Access Denied: error code " ++ h)
  | .dnsblPage code ip =>
    some ("DroneBL reported an entry: " ++ natDec code ++ ", see https://dronebl.org/lookup?ip=" ++ ip)
  | .misconfigPage => some "Internal Server Error: administrator has misconfigured Anubis. Please contact the administrator and ask them to look for the logs around \x22maybeReverseProxy\x22"
  | _ => none

/-- What one invocation of `MaybeReverseProxy` did: the outcome, whether
`ClearCookie` ran, the DNSBL cache afterwards, and whether the
`failedValidations` counter was incremented. -/
structure MRPResult where
  outcome : Outcome
  cookieCleared : Bool
  cache : DecayMap DroneBLResponse
  failedInc : Bool

/-- `Server.RenderIndex` as observed through the gating handler: it
dereferences `rule.Challenge.Difficulty` (line 349), so a nil
challenge-params pointer is a panic; otherwise the challenge page
renders. -/
def renderIndexOutcome (rule : Bot) : Outcome :=
  match rule.challenge with
  | none => .panicked
  | some _ => .challengePage

/-- Lines 231–337 of `MaybeReverseProxy`, without the cache threading:
the action switch followed by cookie inspection, token verification,
the secondary-screening coin flip (`randomJitter`, passed in as
`coin`), and full PoW re-verification.  Returns
(outcome, cookie cleared, failure counter incremented). -/
def afterDnsblCore (s : Server) (r : Request) (now : Nat) (coin : Bool) (cr : CheckResult)
    (rule : Bot) : Outcome × Bool × Bool :=
  match cr.rule with
  | .allow => (.forwardedAllow, false, false)
  | .deny => (.denyPage rule.hash, true, false)
  | .benchmark => (.benchPage, false, false)
  | .unknown => (.otherErrorPage, true, false)
  | .challenge =>
    match r.cookie with
    | none => (renderIndexOutcome rule, true, false)
    | some cv =>
      match jwtParse s.privSeed now cv with
      | none => (renderIndexOutcome rule, true, false)
      | some cl =>
        if coin then (.forwardedBrief, false, false)
        else
          match rule.challenge with
          -- line 308 dereferences rule.Challenge.Difficulty
          | none => (.panicked, false, false)
          | some chr =>
            let challenge := challengeFor s r now chr.difficulty
            if cl.challenge ≠ some (JSONVal.str challenge) then
              (renderIndexOutcome rule, true, false)
            else
              -- var nonce int; if v, ok := claims["nonce"].(float64); ok { nonce = int(v) }
              let nonce : Int := match cl.nonce with | some (.num v) => v | _ => 0
              let calculated := sha256hex (challenge ++ intDec nonce)
              -- claims["response"].(string): unchecked type assertion
              match cl.response with
              | some (.str resp) =>
                if resp = calculated then (.forwardedFull, false, false)
                else (renderIndexOutcome rule, true, true)
              | _ => (.panicked, false, false)

/-- Lines 231–337 of `MaybeReverseProxy` together with the DNSBL cache
state `cache` after the gate, which the remainder of the handler never
modifies. -/
def afterDnsbl (s : Server) (r : Request) (now : Nat) (coin : Bool) (cr : CheckResult)
    (rule : Bot) (cache : DecayMap DroneBLResponse) : MRPResult :=
  let c := afterDnsblCore s r now coin cr rule
  ⟨c.1, c.2.1, cache, c.2.2⟩

set_option linter.unusedVariables false in
/-- `Server.MaybeReverseProxy` (lines 188–337).  `lookupVal` and
`lookupErr` are what `dnsbl.Lookup` would return for the client IP
(the resolver is outside the sources under verification); `coin` is
the `randomJitter` draw.  The DNSBL section translates the Go
shadowing faithfully: the `resp, err := dnsbl.Lookup(ip)` at line 216
declares an inner `resp`, so the freshly looked-up value is written to
the cache (unconditionally, even when `err != nil` — the error is only
logged) while the `resp != dnsbl.AllGood` test at line 224 still reads
the outer `resp`, which after a cache miss is the zero value
`AllGood`. -/
def maybeReverseProxy (s : Server) (r : Request) (now : Nat)
    (lookupVal : DroneBLResponse) (lookupErr : Bool) (coin : Bool) : MRPResult :=
  match check s r with
  | .error _ => ⟨.misconfigPage, false, s.dnsblCache, false⟩
  | .ok (cr, rule) =>
    let gated := s.policy.dnsbl && !(r.xRealIP == "")
    let cache' :=
      if gated && (dmGet s.dnsblCache now r.xRealIP).isNone then
        dmSet s.dnsblCache now r.xRealIP lookupVal 86400
      else s.dnsblCache
    let outer : DroneBLResponse :=
      if gated then (dmGet s.dnsblCache now r.xRealIP).getD AllGood else AllGood
    if gated && !(outer == AllGood) then ⟨.dnsblPage outer r.xRealIP, false, cache', false⟩
    else afterDnsbl s r now coin cr rule cache'

/-! ## Pass-challenge endpoint (`Server.PassChallenge`) -/

/-- The cookie set by a successful pass: name, signed token, absolute
expiry, and the attributes of the `http.SetCookie` call at lines
510–518. -/
structure SetCookie where
  name : String
  value : Token
  expires : Int
  sameSiteLax : Bool
  domain : String
  partitioned : Bool
  path : String
  deriving DecidableEq, Repr

/-- What one invocation of `PassChallenge` did: HTTP status (`none` for
a panic), the cookie minted on success, whether `ClearCookie` ran, and
the two counters. -/
structure PCResult where
  status : Option Nat
  minted : Option SetCookie
  cookieCleared : Bool
  failedInc : Bool
  validatedInc : Bool

/-- `strings.Repeat("0", n)`. -/
def zeroRun (n : Nat) : String := String.mk (List.replicate n '0')

/-- `Server.PassChallenge` (lines 416–523), with the same `now` for the
`time.Now()` calls of one invocation.  Order follows the source: check,
missing-nonce, missing/unparsable `elapsedTime` (each a 500 page with
the cookie cleared), the challenge recomputation (dereferencing
`rule.Challenge.Difficulty`, a panic when nil), unparsable nonce (500),
the constant-time hash comparison then the leading-zero comparison
(each a 403 with the failure counter bumped), and finally minting the
signed claims and the cookie, and a 302 to `redir`. -/
def passChallenge (s : Server) (r : Request) (now : Nat) : PCResult :=
  match check s r with
  | .error _ => ⟨some 500, none, false, false, false⟩
  | .ok (_, rule) =>
    if r.formNonce = "" then ⟨some 500, none, true, false, false⟩
    else if r.formElapsedTime = "" then ⟨some 500, none, true, false, false⟩
    else if ¬ goParseFloatOk r.formElapsedTime then ⟨some 500, none, true, false, false⟩
    else
      match rule.challenge with
      | none => ⟨none, none, false, false, false⟩
      | some chr =>
        let challenge := challengeFor s r now chr.difficulty
        match goAtoi r.formNonce with
        | none => ⟨some 500, none, true, false, false⟩
        | some nonce =>
          let calculated := sha256hex (challenge ++ intDec nonce)
          if r.formResponse ≠ calculated then ⟨some 403, none, true, true, false⟩
          else if ¬ (strStartsWith r.formResponse (zeroRun chr.difficulty)) then
            ⟨some 403, none, true, true, false⟩
          else
            let token : Token :=
              { claims :=
                  { challenge := some (.str challenge)
                    nonce := some (.num nonce)
                    response := some (.str r.formResponse)
                    iat := some (now : Int)
                    nbf := some ((now : Int) - 60)
                    exp := some ((now : Int) + 604800) }
                key := s.privSeed }
            ⟨some 302,
             some
               { name := CookieName
                 value := token
                 expires := (now : Int) + 604800
                 sameSiteLax := true
                 domain := s.opts.cookieDomain
                 partitioned := s.opts.cookiePartitioned
                 path := "/" },
             false, false, true⟩

/-- The result record of a successful `PassChallenge` (the 302 branch,
lines 493–523), written out once: the signed claims token and the
cookie of the `http.SetCookie` call.  Statement-side abbreviation of
the record built in `passChallenge`. -/
def mintResult (s : Server) (r : Request) (now : Nat) (difficulty : Nat) (n : Int) : PCResult where
  status := some 302
  minted := some
    { name := CookieName
      value :=
        { claims :=
            { challenge := some (.str (challengeFor s r now difficulty))
              nonce := some (.num n)
              response := some (.str r.formResponse)
              iat := some (now : Int)
              nbf := some ((now : Int) - 60)
              exp := some ((now : Int) + 604800) }
          key := s.privSeed }
      expires := (now : Int) + 604800
      sameSiteLax := true
      domain := s.opts.cookieDomain
      partitioned := s.opts.cookiePartitioned
      path := "/" }
  cookieCleared := false
  failedInc := false
  validatedInc := true

/-! ## Concrete fixtures

Small concrete servers and requests used to evaluate the model at
explicit inputs (the bot shapes mirror the ones exercised by the
repository's tests: a rule that never matches, a matching challenge
rule at the default difficulty, a matching deny rule). -/

def reqBase : Request where
  acceptLanguage := "en-US"
  xRealIP := "1.2.3.4"
  userAgent := "Mozilla/5.0"
  cookie := none
  formNonce := ""
  formElapsedTime := ""
  formResponse := ""
  formRedir := ""

def optsBase : Options where
  cookieDomain := "local.cetacean.club"
  cookiePartitioned := true

def botNoMatch : Bot where
  name := "nomatch"
  action := .deny
  challenge := none
  rulesCheck := fun _ => .ok false
  rulesHash := "nomatchhash"

def botChal : Bot where
  name := "chal"
  action := .challenge
  challenge := some { difficulty := 4, reportAs := 4, algorithm := AlgorithmFast }
  rulesCheck := fun _ => .ok true
  rulesHash := "chalhash"

def botChal0 : Bot where
  name := "easy"
  action := .challenge
  challenge := some { difficulty := 0, reportAs := 0, algorithm := AlgorithmFast }
  rulesCheck := fun _ => .ok true
  rulesHash := "easyhash"

def botDeny : Bot where
  name := "denybot"
  action := .deny
  challenge := none
  rulesCheck := fun _ => .ok true
  rulesHash := "denyhash"

def mkServer (bots : List Bot) (dnsbl : Bool) (d : Nat) (seed : String)
    (cache : DecayMap DroneBLResponse) : Server where
  privSeed := seed
  policy := { bots := bots, dnsbl := dnsbl, defaultDifficulty := d }
  opts := optsBase
  dnsblCache := cache

def srvC1 : Server := mkServer [botChal] false 4 "seed1" []

def reqC1 : Request :=
  { reqBase with formNonce := "0", formElapsedTime := "420", formResponse := "r1", formRedir := "/" }

def srvC2 : Server := mkServer [] true 4 "seed2" []

def srvC3 : Server := mkServer [] false 4 "seed3" []

def srvC4 : Server := mkServer [botNoMatch, botChal] false 4 "seed4" []

def srvC4x : Server := mkServer [botNoMatch, botChal, botDeny] false 4 "seed4" []

def srvC5 : Server := mkServer [botNoMatch] false 7 "seed5" []

def srvC6 : Server := mkServer [] false 4 "seed6" []

def reqC6 : Request := { reqBase with xRealIP := "::1" }

def srvC6b : Server := mkServer [botChal] false 4 "seed6b" []

def reqC6b : Request := { reqBase with xRealIP := "" }

def srvC7 : Server := mkServer [botDeny] true 4 "seed7" [("1.2.3.4", 3, 2000)]

def srvC7b : Server := mkServer [botDeny] false 4 "seed7b" []

def srvC8 : Server := mkServer [botChal0] false 4 "seed8" []

def reqC8 : Request :=
  { reqBase with
    formNonce := "0"
    formElapsedTime := "420"
    formResponse := sha256hex (challengeFor srvC8 reqBase 1000 0 ++ "0")
    formRedir := "/" }

def srvC9 : Server := mkServer [botChal] false 4 "seed9" []

/-- A signed, unexpired token whose `challenge` claim matches the
recomputed challenge but that carries no `response` claim at all. -/
def tokC9 : Token where
  claims :=
    { challenge := some (.str (challengeFor srvC9 reqBase 1000 4))
      nonce := some (.num 42)
      response := none
      iat := some 900
      nbf := none
      exp := some 2000 }
  key := "seed9"

def reqC9 : Request := { reqBase with cookie := some (.token tokC9) }

def srvC10 : Server := mkServer [botChal] false 4 "seed10" []

/-- A signed, unexpired token whose `challenge` claim matches, whose
`nonce` claim is absent, and whose `response` claim is the string
`"xyz"`. -/
def tokC10 : Token where
  claims :=
    { challenge := some (.str (challengeFor srvC10 reqBase 1000 4))
      nonce := none
      response := some (.str "xyz")
      iat := some 900
      nbf := some 800
      exp := some 2000 }
  key := "seed10"

def reqC10 : Request := { reqBase with cookie := some (.token tokC10) }

/-! ## Helper lemmas -/

theorem checkBots_none (r : Request) :
    ∀ bots : List Bot, (∀ b ∈ bots, b.rulesCheck r = .ok false) → checkBots r bots = .ok none := by
  intro bots
  induction bots with
  | nil => intro _; rfl
  | cons b rest ih =>
    intro h
    have hb : b.rulesCheck r = .ok false := h b (List.mem_cons_self b rest)
    simp only [checkBots, hb]
    exact ih (fun b' hb' => h b' (List.mem_cons_of_mem b hb'))

theorem checkBots_first (r : Request) (b : Bot) (hb : b.rulesCheck r = .ok true) :
    ∀ pre post : List Bot, (∀ b' ∈ pre, b'.rulesCheck r = .ok false) →
      checkBots r (pre ++ b :: post) = .ok (some (⟨"bot/" ++ b.name, b.action⟩, b)) := by
  intro pre
  induction pre with
  | nil =>
    intro post _
    simp only [List.nil_append, checkBots, hb]
  | cons p rest ih =>
    intro post h
    have hp : p.rulesCheck r = .ok false := h p (List.mem_cons_self p rest)
    simp only [List.cons_append, checkBots, hp]
    exact ih post (fun b' hb' => h b' (List.mem_cons_of_mem p hb'))

theorem checkBots_error_not_misconfig (r : Request) :
    ∀ (bots : List Bot) (e : CheckErr), checkBots r bots = .error e → e.isMisconfig = false := by
  intro bots
  induction bots with
  | nil => intro e h; exact absurd h (by simp [checkBots])
  | cons b rest ih =>
    intro e h
    simp only [checkBots] at h
    cases hc : b.rulesCheck r with
    | error msg =>
      rw [hc] at h
      cases h
      rfl
    | ok matched =>
      rw [hc] at h
      cases matched with
      | true => cases h
      | false => exact ih e h

theorem dmGet_dmSet_same {V : Type} (m : DecayMap V) (now : Nat) (k : String) (v : V)
    (ttl : Nat) (h : 0 < ttl) : dmGet (dmSet m now k v ttl) now k = some v := by
  unfold dmGet dmSet
  rw [List.find?_cons_of_pos _ (by simp)]
  simp only
  rw [if_neg (by omega)]

theorem goAtoi_empty : goAtoi "" = none := by decide

theorem goParseFloatOk_empty : goParseFloatOk "" = false := by decide

theorem intDec_zero : intDec 0 = "0" := by decide

/-! ## Claim theorems -/

/-- C5: for every request with a parsable client IP for which no policy
rule matches, `check` returns the synthetic `("default/allow", allow)`
result paired with a synthetic rule whose challenge parameters carry
`difficulty` and `report_as` both equal to the policy's default
difficulty and the fast algorithm tag (so for each default difficulty
D — in particular D in 1..9 — the returned difficulty and report_as
equal D). -/
theorem check_default_allow (s : Server) (r : Request)
    (hip : r.xRealIP ≠ "") (hparse : (goParseIP r.xRealIP).isSome = true)
    (hnomatch : ∀ b ∈ s.policy.bots, b.rulesCheck r = .ok false) :
    check s r = .ok (⟨"default/allow", .allow⟩, defaultBot s.policy.defaultDifficulty) ∧
    (defaultBot s.policy.defaultDifficulty).challenge =
      some { difficulty := s.policy.defaultDifficulty
             reportAs := s.policy.defaultDifficulty
             algorithm := AlgorithmFast } := by
  constructor
  · unfold check
    rw [if_neg hip]
    obtain ⟨v, hv⟩ := Option.isSome_iff_exists.mp hparse
    rw [hv, checkBots_none r s.policy.bots hnomatch]
  · rfl

/-- C5 witness: at default difficulty 7 with one non-matching rule, the
default path returns difficulty 7 and report_as 7. -/
theorem check_default_allow_witness :
    check srvC5 reqBase = .ok (⟨"default/allow", .allow⟩, defaultBot 7) ∧
    (defaultBot 7).challenge = some { difficulty := 7, reportAs := 7, algorithm := AlgorithmFast } :=
  check_default_allow srvC5 reqBase (by decide) (by decide)
    (by
      intro b hb
      simp only [srvC5, mkServer, List.mem_singleton] at hb
      rw [hb]
      rfl)

/-- C4: policy evaluation returns the first rule in declaration order
whose predicate matches (given a parsable client IP and no failing
check before it), and appending any rules after an already-matching
rule leaves the evaluation result unchanged. -/
theorem check_first_match (s s' : Server) (r : Request) (pre post extra : List Bot) (b : Bot)
    (hip : r.xRealIP ≠ "") (hparse : (goParseIP r.xRealIP).isSome = true)
    (hbots : s.policy.bots = pre ++ b :: post)
    (hbots' : s'.policy.bots = s.policy.bots ++ extra)
    (hpre : ∀ b' ∈ pre, b'.rulesCheck r = .ok false)
    (hb : b.rulesCheck r = .ok true) :
    check s r = .ok (⟨"bot/" ++ b.name, b.action⟩, b) ∧
    check s' r = .ok (⟨"bot/" ++ b.name, b.action⟩, b) := by
  obtain ⟨v, hv⟩ := Option.isSome_iff_exists.mp hparse
  constructor
  · unfold check
    rw [if_neg hip, hv, hbots, checkBots_first r b hb pre post hpre]
  · unfold check
    rw [if_neg hip, hv, hbots', hbots, List.append_assoc]
    rw [show (b :: post) ++ extra = b :: (post ++ extra) from rfl]
    rw [checkBots_first r b hb pre (post ++ extra) hpre]

/-- C4 witness: with bots `[nomatch, chal]` the matching rule `chal` is
returned, and appending a further matching deny rule after it leaves
the result unchanged. -/
theorem check_first_match_witness :
    check srvC4 reqBase = .ok (⟨"bot/chal", botChal.action⟩, botChal) ∧
    check srvC4x reqBase = .ok (⟨"bot/chal", botChal.action⟩, botChal) :=
  check_first_match srvC4 srvC4x reqBase [botNoMatch] [] [botDeny] botChal
    (by decide) (by decide) rfl rfl
    (by
      intro b hb
      simp only [List.mem_singleton] at hb
      rw [hb]
      rfl)
    rfl

/-- When the DNSBL gate does not block (DNSBL disabled, no client IP,
or the cached classification reads as `AllGood` — which includes a
cache miss, whose zero read feeds the shadowed listing test), the
gating handler is the post-gate continuation `afterDnsbl`. -/
theorem mrp_gate_pass (s : Server) (r : Request) (now : Nat) (lv : DroneBLResponse)
    (lerr coin : Bool) (cr : CheckResult) (b : Bot)
    (hchk : check s r = .ok (cr, b))
    (hgate : s.policy.dnsbl = true → r.xRealIP ≠ "" →
      (dmGet s.dnsblCache now r.xRealIP).getD AllGood = AllGood) :
    maybeReverseProxy s r now lv lerr coin =
      afterDnsbl s r now coin cr b
        (if (s.policy.dnsbl && !(r.xRealIP == "")) && (dmGet s.dnsblCache now r.xRealIP).isNone
         then dmSet s.dnsblCache now r.xRealIP lv 86400
         else s.dnsblCache) := by
  unfold maybeReverseProxy
  rw [hchk]
  by_cases hd : s.policy.dnsbl = true
  · by_cases hip : r.xRealIP = ""
    · simp [hip]
    · have houter := hgate hd hip
      have hbeq : (r.xRealIP == "") = false := by
        simp [hip]
      simp only [hd, hbeq, Bool.not_false, Bool.and_true, Bool.true_and, houter]
      simp
  · have hd' : s.policy.dnsbl = false := by
      cases hpol : s.policy.dnsbl
      · rfl
      · exact absurd hpol hd
    simp [hd']

/-- C2 (amended): when the DNSBL lookup for an uncached client IP fails
with an error, the gating handler does treat the IP as not listed for
that request — the listing test reads the outer shadowed variable,
which is the zero value `AllGood` after the cache miss — but, contrary
to the claim, it still caches whatever value the failed lookup
returned, with a 24-hour TTL, so the cache does hold an entry for that
IP afterwards. -/
theorem dnsbl_failure_caches (s : Server) (r : Request) (now : Nat) (lv : DroneBLResponse)
    (lerr coin : Bool) (cr : CheckResult) (b : Bot)
    (hdn : s.policy.dnsbl = true) (hip : r.xRealIP ≠ "")
    (hchk : check s r = .ok (cr, b))
    (hmiss : dmGet s.dnsblCache now r.xRealIP = none) :
    maybeReverseProxy s r now lv lerr coin =
      afterDnsbl s r now coin cr b (dmSet s.dnsblCache now r.xRealIP lv 86400) ∧
    (maybeReverseProxy s r now lv lerr coin).cache = dmSet s.dnsblCache now r.xRealIP lv 86400 ∧
    dmGet (maybeReverseProxy s r now lv lerr coin).cache now r.xRealIP = some lv := by
  have hpass := mrp_gate_pass s r now lv lerr coin cr b hchk
    (fun _ _ => by rw [hmiss]; rfl)
  rw [hmiss] at hpass
  have hbeq : (r.xRealIP == "") = false := by simp [hip]
  simp only [hdn, hbeq, Bool.not_false, Bool.and_true, Bool.true_and, Option.isNone_none,
    if_true] at hpass
  refine ⟨hpass, ?_, ?_⟩
  · rw [hpass]; rfl
  · rw [hpass]
    show dmGet (dmSet s.dnsblCache now r.xRealIP lv 86400) now r.xRealIP = some lv
    exact dmGet_dmSet_same s.dnsblCache now r.xRealIP lv 86400 (by omega)

/-- C2 counterexample: with DNSBL enabled, an empty cache and a failed
lookup (`lookupErr = true`) returning the zero value, the handler
proceeds (default allow) yet afterwards the cache holds an `all_good`
entry for the IP with a 24-hour TTL — the claim says it holds no
entry. -/
theorem dnsbl_failure_cached_cex :
    dmGet srvC2.dnsblCache 1000 "1.2.3.4" = none ∧
    (maybeReverseProxy srvC2 reqBase 1000 0 true false).cache = [("1.2.3.4", 0, 87400)] ∧
    dmGet (maybeReverseProxy srvC2 reqBase 1000 0 true false).cache 1000 "1.2.3.4" = some 0 ∧
    (maybeReverseProxy srvC2 reqBase 1000 0 true false).outcome = .forwardedAllow :=
  ⟨rfl, rfl, rfl, rfl⟩

/-- C2 witness: the amended theorem applied at the concrete failing
lookup of the counterexample. -/
theorem dnsbl_failure_caches_witness :
    maybeReverseProxy srvC2 reqBase 1000 0 true false =
      afterDnsbl srvC2 reqBase 1000 false ⟨"default/allow", .allow⟩ (defaultBot 4)
        (dmSet srvC2.dnsblCache 1000 "1.2.3.4" 0 86400) ∧
    (maybeReverseProxy srvC2 reqBase 1000 0 true false).cache =
      dmSet srvC2.dnsblCache 1000 "1.2.3.4" 0 86400 ∧
    dmGet (maybeReverseProxy srvC2 reqBase 1000 0 true false).cache 1000 "1.2.3.4" = some 0 :=
  dnsbl_failure_caches srvC2 reqBase 1000 0 true false ⟨"default/allow", .allow⟩ (defaultBot 4)
    rfl (by decide) rfl rfl

/-- C3 counterexample: two challenge derivations one second apart and
on opposite sides of the 7-day multiple 63866880000 produce EQUAL
challenge strings — `time.Time.Round` rounds to the nearest multiple,
so 63866879999 rounds up across the boundary. -/
theorem challenge_week_boundary_cex :
    63866879999 + 1 = 63866880000 ∧
    63866880000 % 604800 = 0 ∧
    challengeFor srvC3 reqBase 63866879999 4 = challengeFor srvC3 reqBase 63866880000 4 := by
  refine ⟨rfl, by decide, ?_⟩
  unfold challengeFor challengeData
  rw [show goRoundWeek 63866879999 = goRoundWeek 63866880000 from by decide]

/-- C3 (amended): the WeekTime component is the current UTC time
rounded to the NEAREST 7-day multiple (halfway rounding up), not
rounded down: derivations whose instants round to the same multiple
produce equal challenge strings; instants 1 second apart across a
7-day multiple still round together (63866879999 and 63866880000 both
round to 63866880000), while instants 1 second apart across the
half-window point 3.5 days after a multiple round to different
multiples and produce different challenge data and different challenge
strings. -/
theorem challenge_week_rounding (s : Server) (r : Request) (d : Nat) (t1 t2 : Nat)
    (h : goRoundWeek t1 = goRoundWeek t2) :
    challengeFor s r t1 d = challengeFor s r t2 d ∧
    goRoundWeek 63866879999 = 63866880000 ∧
    goRoundWeek 63867182399 = 63866880000 ∧
    goRoundWeek 63867182400 = 63867484800 ∧
    challengeData srvC3 reqBase 63867182399 4 ≠ challengeData srvC3 reqBase 63867182400 4 ∧
    challengeFor srvC3 reqBase 63867182399 4 ≠ challengeFor srvC3 reqBase 63867182400 4 := by
  refine ⟨?_, by decide, by decide, by decide, by decide, by decide⟩
  unfold challengeFor challengeData
  rw [h]

/-- C3 witness: two instants five seconds apart inside one rounding
window give equal challenges, and the concrete boundary facts hold. -/
theorem challenge_week_rounding_witness :
    challengeFor srvC3 reqBase 63866880005 4 = challengeFor srvC3 reqBase 63866880010 4 ∧
    goRoundWeek 63866879999 = 63866880000 ∧
    goRoundWeek 63867182399 = 63866880000 ∧
    goRoundWeek 63867182400 = 63867484800 ∧
    challengeData srvC3 reqBase 63867182399 4 ≠ challengeData srvC3 reqBase 63867182400 4 ∧
    challengeFor srvC3 reqBase 63867182399 4 ≠ challengeFor srvC3 reqBase 63867182400 4 :=
  challenge_week_rounding srvC3 reqBase 4 63866880005 63866880010 (by decide)

/-- C6 (amended): `check` fails with a `[misconfiguration]`-tagged
error exactly when the `X-Real-IP` header is absent or does not parse
under `net.ParseIP` — which accepts IPv4 AND IPv6 addresses, not only
IPv4 as claimed; in the failing case no rule predicate is evaluated
(the result is the same for every bot list) and the gating handler
renders the 500 misconfiguration page. -/
theorem check_misconfig_iff (s : Server) (r : Request) (now : Nat)
    (lv : DroneBLResponse) (lerr coin : Bool) :
    ((∃ e, check s r = .error e ∧ e.isMisconfig = true) ↔
      (r.xRealIP = "" ∨ goParseIP r.xRealIP = none)) ∧
    ((r.xRealIP = "" ∨ goParseIP r.xRealIP = none) →
      (∀ bots : List Bot,
        check { s with policy := { s.policy with bots := bots } } r = check s r) ∧
      (maybeReverseProxy s r now lv lerr coin).outcome = .misconfigPage ∧
      Outcome.status .misconfigPage = some 500) := by
  by_cases hip : r.xRealIP = ""
  · have hchk : ∀ s₀ : Server, check s₀ r = .error .misconfigNoHeader := by
      intro s₀
      unfold check
      rw [if_pos hip]
    refine ⟨⟨fun _ => Or.inl hip, fun _ => ⟨.misconfigNoHeader, hchk s, rfl⟩⟩, fun _ => ?_⟩
    refine ⟨fun bots => by rw [hchk, hchk], ?_, rfl⟩
    unfold maybeReverseProxy
    rw [hchk s]
  · cases hp : goParseIP r.xRealIP with
    | none =>
      have hchk : ∀ s₀ : Server, check s₀ r = .error (.misconfigNotIP r.xRealIP) := by
        intro s₀
        unfold check
        rw [if_neg hip, hp]
      refine ⟨⟨fun _ => Or.inr rfl, fun _ => ⟨.misconfigNotIP r.xRealIP, hchk s, rfl⟩⟩, fun _ => ?_⟩
      refine ⟨fun bots => by rw [hchk, hchk], ?_, rfl⟩
      unfold maybeReverseProxy
      rw [hchk s]
    | some v =>
      constructor
      · constructor
        · rintro ⟨e, he, hmis⟩
          unfold check at he
          rw [if_neg hip, hp] at he
          cases hcb : checkBots r s.policy.bots with
          | error e' =>
            rw [hcb] at he
            cases he
            rw [checkBots_error_not_misconfig r s.policy.bots e hcb] at hmis
            cases hmis
          | ok res =>
            rw [hcb] at he
            cases res <;> cases he
        · rintro (h | h)
          · exact absurd h hip
          · exact Option.noConfusion h
      · rintro (h | h)
        · exact absurd h hip
        · exact Option.noConfusion h

/-- C6 witness: with an empty `X-Real-IP` header, `check` fails the
same way for every bot list and the handler serves the 500 page. -/
theorem check_misconfig_iff_witness :
    check { srvC6b with policy := { srvC6b.policy with bots := [botChal] } } reqC6b =
      check srvC6b reqC6b ∧
    (maybeReverseProxy srvC6b reqC6b 1000 0 false false).outcome = .misconfigPage ∧
    Outcome.status .misconfigPage = some 500 :=
  let h := (check_misconfig_iff srvC6b reqC6b 1000 0 false false).2 (Or.inl rfl)
  ⟨h.1 [botChal], h.2.1, h.2.2⟩

/-- C6 counterexample: `"::1"` is not an IPv4 address, yet `check`
succeeds (net.ParseIP also accepts IPv6), so evaluation does not fail
exactly on non-IPv4 headers as claimed. -/
theorem check_ipv6_accepted_cex :
    reqC6.xRealIP = "::1" ∧ goParseIPv4 "::1" = false ∧
    check srvC6 reqC6 = .ok (⟨"default/allow", .allow⟩, defaultBot 4) :=
  ⟨rfl, by decide, rfl⟩

/-- C7 (amended): a request matched by a rule with action deny is
answered — whenever the DNSBL gate does not short-circuit it first
with a listing page — by clearing the cookie and rendering an HTTP 200
(not 403) page whose body carries the hex SHA-256 of
`"<rule-name>::<predicate-stable-hash>"` as the user-facing error
code. -/
theorem deny_renders_rule_hash (s : Server) (r : Request) (now : Nat) (lv : DroneBLResponse)
    (lerr coin : Bool) (cr : CheckResult) (b : Bot)
    (hchk : check s r = .ok (cr, b)) (hdeny : cr.rule = .deny)
    (hgate : s.policy.dnsbl = true → r.xRealIP ≠ "" →
      (dmGet s.dnsblCache now r.xRealIP).getD AllGood = AllGood) :
    (maybeReverseProxy s r now lv lerr coin).outcome = .denyPage b.hash ∧
    (maybeReverseProxy s r now lv lerr coin).cookieCleared = true ∧
    Outcome.status (.denyPage b.hash) = some 200 ∧
    Outcome.body (.denyPage b.hash) =
      some ("Access Denied: error code " ++ sha256hex (b.name ++ "::" ++ b.rulesHash)) := by
  rw [mrp_gate_pass s r now lv lerr coin cr b hchk hgate]
  unfold afterDnsbl afterDnsblCore
  rw [hdeny]
  exact ⟨rfl, rfl, rfl, rfl⟩

/-- C7 witness: the deny bot with DNSBL disabled renders the 200 page
with the rule hash and clears the cookie. -/
theorem deny_renders_rule_hash_witness :
    (maybeReverseProxy srvC7b reqBase 1000 0 false false).outcome = .denyPage botDeny.hash ∧
    (maybeReverseProxy srvC7b reqBase 1000 0 false false).cookieCleared = true ∧
    Outcome.status (.denyPage botDeny.hash) = some 200 ∧
    Outcome.body (.denyPage botDeny.hash) =
      some ("Access Denied: error code " ++ sha256hex ("denybot" ++ "::" ++ "denyhash")) :=
  deny_renders_rule_hash srvC7b reqBase 1000 0 false false ⟨"bot/denybot", .deny⟩ botDeny
    rfl rfl (fun hd _ => absurd hd (by decide))

/-- C7 counterexample: the same deny-matched request, with DNSBL
enabled and a cached listing for the client IP, is answered by the
DNSBL listing page without clearing the cookie — not by the deny page
with the rule hash — so the claim's universal statement fails. -/
theorem deny_preempted_by_dnsbl_cex :
    check srvC7 reqBase = .ok (⟨"bot/denybot", .deny⟩, botDeny) ∧
    (maybeReverseProxy srvC7 reqBase 1000 0 false false).outcome = .dnsblPage 3 "1.2.3.4" ∧
    (maybeReverseProxy srvC7 reqBase 1000 0 false false).cookieCleared = false :=
  ⟨rfl, rfl, rfl⟩

/-- C1: for a pass-challenge request whose nonce and elapsedTime
parse (and whose policy evaluation yields a rule with challenge
parameters of difficulty D), the endpoint answers 302 — minting the
session cookie — iff the submitted response equals
`SHA256_hex(challenge ++ decimal(nonce))` for the recomputed challenge
AND begins with D `'0'` characters; if either check fails it answers
403 and increments the failure counter.  In particular at D = 4,
nonce = 0, a response equal to `SHA256_hex(challenge ++ "0")` that
lacks four leading zeros yields 403. -/
theorem passChallenge_pow_iff (s : Server) (r : Request) (now : Nat)
    (cr : CheckResult) (b : Bot) (chr : ChallengeRules) (n : Int)
    (hchk : check s r = .ok (cr, b)) (hchal : b.challenge = some chr)
    (hnonce : goAtoi r.formNonce = some n)
    (helap : goParseFloatOk r.formElapsedTime = true) :
    ((passChallenge s r now).status = some 302 ↔
      (r.formResponse = sha256hex (challengeFor s r now chr.difficulty ++ intDec n) ∧
       strStartsWith r.formResponse (zeroRun chr.difficulty) = true)) ∧
    (¬ (r.formResponse = sha256hex (challengeFor s r now chr.difficulty ++ intDec n) ∧
        strStartsWith r.formResponse (zeroRun chr.difficulty) = true) →
      (passChallenge s r now).status = some 403 ∧ (passChallenge s r now).failedInc = true) ∧
    ((passChallenge s r now).status = some 302 → (passChallenge s r now).minted.isSome = true) ∧
    (chr.difficulty = 4 → n = 0 →
      r.formResponse = sha256hex (challengeFor s r now chr.difficulty ++ "0") →
      strStartsWith r.formResponse (zeroRun 4) = false →
      (passChallenge s r now).status = some 403) := by
  have hne : r.formNonce ≠ "" := by
    intro he
    rw [he, goAtoi_empty] at hnonce
    cases hnonce
  have hee : r.formElapsedTime ≠ "" := by
    intro he
    rw [he, goParseFloatOk_empty] at helap
    cases helap
  by_cases hC : r.formResponse = sha256hex (challengeFor s r now chr.difficulty ++ intDec n)
  · by_cases hZ : strStartsWith r.formResponse (zeroRun chr.difficulty) = true
    · have hZ2 := hZ
      rw [hC] at hZ2
      have hres : passChallenge s r now = mintResult s r now chr.difficulty n := by
        simp [passChallenge, mintResult, hchk, hchal, hnonce, helap, hne, hee, hC, hZ2]
      refine ⟨?_, fun h => absurd ⟨hC, hZ⟩ h, ?_, ?_⟩
      · rw [hres]
        exact ⟨fun _ => ⟨hC, hZ⟩, fun _ => rfl⟩
      · rw [hres]
        intro _
        rfl
      · intro hd4 _ _ hsw
        rw [hd4] at hZ
        rw [hZ] at hsw
        cases hsw
    · rw [Bool.not_eq_true] at hZ
      have hZ2 := hZ
      rw [hC] at hZ2
      have hres : passChallenge s r now = ⟨some 403, none, true, true, false⟩ := by
        simp [passChallenge, hchk, hchal, hnonce, helap, hne, hee, hC, hZ2]
      refine ⟨?_, fun _ => ⟨by rw [hres], by rw [hres]⟩, ?_, ?_⟩
      · rw [hres]
        constructor
        · intro h
          cases h
        · rintro ⟨-, hz⟩
          rw [hZ] at hz
          cases hz
      · rw [hres]
        intro h
        cases h
      · intro _ _ _ _
        rw [hres]
  · have hres : passChallenge s r now = ⟨some 403, none, true, true, false⟩ := by
      simp [passChallenge, hchk, hchal, hnonce, helap, hne, hee, hC]
    refine ⟨?_, fun _ => ⟨by rw [hres], by rw [hres]⟩, ?_, ?_⟩
    · rw [hres]
      constructor
      · intro h
        cases h
      · rintro ⟨hc, -⟩
        exact absurd hc hC
    · rw [hres]
      intro h
      cases h
    · intro _ h0 hr _
      rw [h0, intDec_zero] at hC
      exact absurd hr hC

/-- C1 witness: at difficulty 4 with nonce `"0"` and elapsedTime
`"420"`, the proof-of-work acceptance condition is exactly the
recomputed-hash equality together with the four leading zeros. -/
theorem passChallenge_pow_iff_witness :
    ((passChallenge srvC1 reqC1 1000).status = some 302 ↔
      (reqC1.formResponse = sha256hex (challengeFor srvC1 reqC1 1000 4 ++ intDec 0) ∧
       strStartsWith reqC1.formResponse (zeroRun 4) = true)) ∧
    (¬ (reqC1.formResponse = sha256hex (challengeFor srvC1 reqC1 1000 4 ++ intDec 0) ∧
        strStartsWith reqC1.formResponse (zeroRun 4) = true) →
      (passChallenge srvC1 reqC1 1000).status = some 403 ∧
      (passChallenge srvC1 reqC1 1000).failedInc = true) ∧
    ((passChallenge srvC1 reqC1 1000).status = some 302 →
      (passChallenge srvC1 reqC1 1000).minted.isSome = true) ∧
    ((4 : Nat) = 4 → (0 : Int) = 0 →
      reqC1.formResponse = sha256hex (challengeFor srvC1 reqC1 1000 4 ++ "0") →
      strStartsWith reqC1.formResponse (zeroRun 4) = false →
      (passChallenge srvC1 reqC1 1000).status = some 403) :=
  passChallenge_pow_iff srvC1 reqC1 1000 ⟨"bot/chal", .challenge⟩ botChal
    { difficulty := 4, reportAs := 4, algorithm := AlgorithmFast } 0
    rfl rfl (by decide) (by decide)

/-- C8: every session token minted by a successful pass is signed with
the server's key and carries the claims challenge, nonce and response
with `exp = iat + 7d` and `nbf = iat − 60s`; the cookie carrying it
has a 7-day expiry, SameSite=Lax, Path=/, and Domain and Partitioned
from the server's configuration. -/
theorem passChallenge_mints_cookie (s : Server) (r : Request) (now : Nat)
    (cr : CheckResult) (b : Bot) (chr : ChallengeRules) (n : Int)
    (hchk : check s r = .ok (cr, b)) (hchal : b.challenge = some chr)
    (hnonce : goAtoi r.formNonce = some n)
    (helap : goParseFloatOk r.formElapsedTime = true)
    (hresp : r.formResponse = sha256hex (challengeFor s r now chr.difficulty ++ intDec n))
    (hzero : strStartsWith r.formResponse (zeroRun chr.difficulty) = true) :
    passChallenge s r now = mintResult s r now chr.difficulty n ∧
    (∃ ck : SetCookie, (passChallenge s r now).minted = some ck ∧
      ck.value.key = s.privSeed ∧
      ck.value.claims.challenge = some (.str (challengeFor s r now chr.difficulty)) ∧
      ck.value.claims.nonce = some (.num n) ∧
      ck.value.claims.response = some (.str r.formResponse) ∧
      ck.value.claims.iat = some (now : Int) ∧
      ck.value.claims.exp = some ((now : Int) + 7 * 24 * 60 * 60) ∧
      ck.value.claims.nbf = some ((now : Int) - 60) ∧
      ck.expires = (now : Int) + 7 * 24 * 60 * 60 ∧
      ck.sameSiteLax = true ∧
      ck.path = "/" ∧
      ck.domain = s.opts.cookieDomain ∧
      ck.partitioned = s.opts.cookiePartitioned) := by
  have hne : r.formNonce ≠ "" := by
    intro he
    rw [he, goAtoi_empty] at hnonce
    cases hnonce
  have hee : r.formElapsedTime ≠ "" := by
    intro he
    rw [he, goParseFloatOk_empty] at helap
    cases helap
  have hzero2 := hzero
  rw [hresp] at hzero2
  have hres : passChallenge s r now = mintResult s r now chr.difficulty n := by
    simp [passChallenge, mintResult, hchk, hchal, hnonce, helap, hne, hee, hresp, hzero2]
  refine ⟨hres, ?_⟩
  rw [hres]
  exact ⟨_, rfl, rfl, rfl, rfl, rfl, rfl, by norm_num, rfl, by norm_num, rfl, rfl, rfl, rfl⟩

/-- C8 witness: at difficulty 0 a correct pass mints the signed cookie
with the claimed attributes (`CookieDomain = local.cetacean.club`,
`CookiePartitioned = true`). -/
theorem passChallenge_mints_cookie_witness :
    passChallenge srvC8 reqC8 1000 = mintResult srvC8 reqC8 1000 0 0 ∧
    (∃ ck : SetCookie, (passChallenge srvC8 reqC8 1000).minted = some ck ∧
      ck.value.key = srvC8.privSeed ∧
      ck.value.claims.challenge = some (.str (challengeFor srvC8 reqC8 1000 0)) ∧
      ck.value.claims.nonce = some (.num 0) ∧
      ck.value.claims.response = some (.str reqC8.formResponse) ∧
      ck.value.claims.iat = some (1000 : Int) ∧
      ck.value.claims.exp = some ((1000 : Int) + 7 * 24 * 60 * 60) ∧
      ck.value.claims.nbf = some ((1000 : Int) - 60) ∧
      ck.expires = (1000 : Int) + 7 * 24 * 60 * 60 ∧
      ck.sameSiteLax = true ∧
      ck.path = "/" ∧
      ck.domain = srvC8.opts.cookieDomain ∧
      ck.partitioned = srvC8.opts.cookiePartitioned) :=
  passChallenge_mints_cookie srvC8 reqC8 1000 ⟨"bot/easy", .challenge⟩ botChal0
    { difficulty := 0, reportAs := 0, algorithm := AlgorithmFast } 0
    rfl rfl (by decide) (by decide)
    (by rw [show intDec 0 = "0" from by decide]; rfl)
    (by rfl)

/-- C9: the full-verification path is NOT total — evaluating the gating
handler at a correctly signed, unexpired token whose `challenge` claim
matches the recomputed challenge but whose `response` claim is absent
reaches the unchecked `claims["response"].(string)` type assertion of
line 326 and panics instead of forwarding or re-rendering. -/
theorem response_claim_assertion_panics :
    jwtParse srvC9.privSeed 1000 (.token tokC9) = some tokC9.claims ∧
    tokC9.claims.challenge = some (.str (challengeFor srvC9 reqC9 1000 4)) ∧
    tokC9.claims.response = none ∧
    (maybeReverseProxy srvC9 reqC9 1000 0 false false).outcome = .panicked := by
  refine ⟨rfl, rfl, rfl, ?_⟩
  rw [mrp_gate_pass srvC9 reqC9 1000 0 false false ⟨"bot/chal", .challenge⟩ botChal rfl
    (fun hd _ => absurd hd (by decide))]
  show (afterDnsblCore srvC9 reqC9 1000 false ⟨"bot/chal", .challenge⟩ botChal).1 = .panicked
  have hcook : reqC9.cookie = some (.token tokC9) := rfl
  have hjwt : jwtParse srvC9.privSeed 1000 (.token tokC9) = some tokC9.claims := rfl
  have hchalb : botChal.challenge =
      some { difficulty := 4, reportAs := 4, algorithm := AlgorithmFast } := rfl
  have hclaims : tokC9.claims.challenge = some (.str (challengeFor srvC9 reqC9 1000 4)) := rfl
  have hrespn : tokC9.claims.response = none := rfl
  simp [afterDnsblCore, hcook, hjwt, hchalb, hclaims, hrespn]

/-- C10: on the full-verification path, a valid token whose `nonce`
claim is missing or not a JSON number is verified with nonce 0: it is
accepted (PASS-FULL) exactly when its `response` claim is the string
`SHA256_hex(challenge ++ "0")` for the recomputed challenge (an absent
or non-string `response` claim is never accepted — it panics). -/
theorem fullVerify_missing_nonce_zero (s : Server) (r : Request) (now : Nat)
    (lv : DroneBLResponse) (lerr : Bool) (cr : CheckResult) (b : Bot) (chr : ChallengeRules)
    (cv : CookieVal) (cl : TokenClaims)
    (hchk : check s r = .ok (cr, b)) (hact : cr.rule = .challenge)
    (hgate : s.policy.dnsbl = true → r.xRealIP ≠ "" →
      (dmGet s.dnsblCache now r.xRealIP).getD AllGood = AllGood)
    (hck : r.cookie = some cv) (hjwt : jwtParse s.privSeed now cv = some cl)
    (hchalb : b.challenge = some chr)
    (hclaim : cl.challenge = some (.str (challengeFor s r now chr.difficulty)))
    (hnonum : ∀ q : Int, cl.nonce ≠ some (.num q)) :
    (maybeReverseProxy s r now lv lerr false).outcome = .forwardedFull ↔
      cl.response = some (.str (sha256hex (challengeFor s r now chr.difficulty ++ "0"))) := by
  rw [mrp_gate_pass s r now lv lerr false cr b hchk hgate]
  show (afterDnsblCore s r now false cr b).1 = .forwardedFull ↔ _
  have hnonce0 : (match cl.nonce with | some (.num v) => v | _ => (0 : Int)) = 0 := by
    cases hn : cl.nonce with
    | none => rfl
    | some v =>
      cases v with
      | num q => exact absurd hn (hnonum q)
      | str z => rfl
      | other => rfl
  simp only [afterDnsblCore, hact, hck, hjwt, hchalb, hclaim, hnonce0, Bool.false_eq_true,
    if_false, ne_eq, not_true_eq_false]
  rw [intDec_zero]
  cases hresp : cl.response with
  | none => simp
  | some v =>
    cases v with
    | str resp =>
      by_cases hr : resp = sha256hex (challengeFor s r now chr.difficulty ++ "0")
      · simp [hr]
      · simp [hr, renderIndexOutcome, hchalb]
    | num q => simp
    | other => simp

/-- C10 witness: the concrete signed token with no nonce claim and
response claim `"xyz"` is accepted exactly if `"xyz"` equals the hash
of challenge ++ "0". -/
theorem fullVerify_missing_nonce_zero_witness :
    (maybeReverseProxy srvC10 reqC10 1000 0 false false).outcome = .forwardedFull ↔
      tokC10.claims.response =
        some (.str (sha256hex (challengeFor srvC10 reqC10 1000 4 ++ "0"))) :=
  fullVerify_missing_nonce_zero srvC10 reqC10 1000 0 false ⟨"bot/chal", .challenge⟩ botChal
    { difficulty := 4, reportAs := 4, algorithm := AlgorithmFast } (.token tokC10) tokC10.claims
    rfl rfl (fun hd _ => absurd hd (by decide)) rfl rfl rfl rfl
    (fun q h => Option.noConfusion h)

end Anubis
